import Mathlib

/-!
Verification of the data-processing core of the ZzAlign patient
dashboard.  Shallow embedding of the relevant logic of
`prototype 4/prototype.py`:

* `parse_nox_report` (lines 24-75): the report-metric extractor, nine
  regex field searches with per-field defaults and two derived fields;
* `update_window` (lines 713-747): 30-second window navigation;
* `create_manufacturing_timeline` (lines 1421-1436): windowed slicing;
* `create_fullnight_timeline` (lines 1618-1729): full-night traces;
* `position_angle_to_category` (lines 1450-1459): tilt-angle classifier.

Texts are `List Char`; numeric values are `ℚ` (the floats in play are
small decimal literals and regex-extracted decimals); the `int()`
truncation is modelled by `pyInt`.

Each of the nine `re.search` patterns of `parse_nox_report` is embedded
as a dedicated scanner.  The patterns are simple enough that the regex
engine backtracking collapses to the deterministic scans below; the
only backtracking point that can matter is the optional dot inside the
number group `(\d+\.?\d*)`, which `numCandidates` keeps as an ordered
candidate list (with-dot first, as the greedy engine tries it first).
The pieces `\d+`, `\d*`, `\s*` and `\s+` never benefit from partial
backtracking against the suffixes that follow them in these patterns
(`/h`, `%`, `h`, `m`, end of line), because a shorter match leaves a
digit (resp. a space) in a place where the suffix needs a non-digit
(resp. non-space) character.
-/

/-- Python regex class `\d` restricted to ASCII, which is all the report
data uses. -/
def pyIsDigit (c : Char) : Bool := '0' ≤ c && c ≤ '9'

/-- Python regex class `\s`: space, tab, newline, carriage return,
vertical tab, form feed. -/
def pyIsSpace (c : Char) : Bool :=
  c = ' ' || c = '\t' || c = '\n' || c = '\r' || c = '\x0b' || c = '\x0c'

/-- Value of a digit string, e.g. the characters 1,4,3 give 143. -/
def natOfDigits (ds : List Char) : ℕ :=
  ds.foldl (fun a c => 10 * a + (c.toNat - '0'.toNat)) 0

/-- Value of `float(...)` applied to the decimal `<ip>.<fp>` for digit
strings `ip`, `fp`. -/
def numVal (ip fp : List Char) : ℚ :=
  (natOfDigits ip : ℚ) + (natOfDigits fp : ℚ) / (10 : ℚ) ^ fp.length

/-- Matches of the number group `(\d+\.?\d*)` at the head of `cs`:
candidate (value, rest) pairs in the greedy engine order — take the
optional dot (with the maximal digit run after it) first, fall back to
dropping it. -/
def numCandidates (cs : List Char) : List (ℚ × List Char) :=
  let (ip, rest) := cs.span pyIsDigit
  if ip.isEmpty then []
  else
    match rest with
    | '.' :: rest2 =>
      let (fp, rest3) := rest2.span pyIsDigit
      [(numVal ip fp, rest3), (numVal ip [], rest)]
    | _ => [(numVal ip [], rest)]

/-- First number candidate whose trailing text satisfies `after`. -/
def firstNum (after : List Char → Bool) : List (ℚ × List Char) → Option ℚ
  | [] => none
  | (q, rest) :: more => if after rest then some q else firstNum after more

/-- Literal match: `lit l cs` strips the exact prefix `l` from `cs`. -/
def lit : List Char → List Char → Option (List Char)
  | [], cs => some cs
  | _, [] => none
  | l :: ls, c :: cs => if c = l then lit ls cs else none

/-- Literal match against a string literal. -/
def litS (s : String) (cs : List Char) : Option (List Char) := lit s.toList cs

/-- Greedy `\s*` (deterministic against the non-space suffixes used
here). -/
def dropSpaces (cs : List Char) : List Char := cs.dropWhile pyIsSpace

/-- Mandatory whitespace `\s+`. -/
def spaces1 (cs : List Char) : Option (List Char) :=
  let (sp, rest) := cs.span pyIsSpace
  if sp.isEmpty then none else some rest

/-- Suffix test for `\s*/h`. -/
def afterSlashH (cs : List Char) : Bool := (litS "/h" (dropSpaces cs)).isSome

/-- Suffix test for `\s*%`. -/
def afterPercent (cs : List Char) : Bool := (litS "%" (dropSpaces cs)).isSome

/-- Suffix test for `/h` directly (the arousal pattern has no `\s*`
before `/h`). -/
def afterSlashHNoSpace (cs : List Char) : Bool := (litS "/h" cs).isSome

/-- Optional leading quote `"?` (deterministic: no label starts with a
quote). -/
def quoteOpt : List Char → List Char
  | '"' :: rest => rest
  | cs => cs

/-- Match `"?<label>\s+(\d+\.?\d*)<after>` at the head of `cs`. -/
def matchLabelNumAt (label : String) (after : List Char → Bool)
    (cs : List Char) : Option ℚ :=
  match litS label (quoteOpt cs) with
  | none => none
  | some cs1 =>
    match spaces1 cs1 with
    | none => none
    | some cs2 => firstNum after (numCandidates cs2)

/-- Model of `re.search`: leftmost position (including the end position)
where the position matcher `m` succeeds. -/
def reSearch (m : List Char → Option α) : List Char → Option α
  | [] => m []
  | c :: cs =>
    match m (c :: cs) with
    | some v => some v
    | none => reSearch m cs

/-- Positions strictly after a newline, left to right. -/
def searchAfterNL (m : List Char → Option α) : List Char → Option α
  | [] => none
  | c :: cs =>
    if c = '\n' then
      match m cs with
      | some v => some v
      | none => searchAfterNL m cs
    else searchAfterNL m cs

/-- Model of `re.search` with `re.MULTILINE` for a pattern anchored by
`^`: try the start of the string, then every position following a
newline. -/
def reSearchML (m : List Char → Option α) (cs : List Char) : Option α :=
  match m cs with
  | some v => some v
  | none => searchAfterNL m cs

/-- Pattern `.*?(\d+\.?\d*)<after>`: advance (never across a newline) to
the first offset where a number followed by `after` matches. -/
def dotStarNumThen (after : List Char → Bool) : List Char → Option ℚ
  | [] => none
  | c :: cs =>
    match firstNum after (numCandidates (c :: cs)) with
    | some q => some q
    | none => if c = '\n' then none else dotStarNumThen after cs

/-- Pattern `\s*$` under `re.MULTILINE`: some run of whitespace ends the
string or reaches a newline. -/
def eolAfterSpaces (cs : List Char) : Bool :=
  let (sp, rest) := cs.span pyIsSpace
  rest.isEmpty || sp.contains '\n'

/-- Pattern `.*?(\d+)\s*$` (with the MULTILINE end anchor): advance
(never across a newline) to the first offset whose maximal digit run is
followed by `\s*$`. -/
def dotStarNatEol : List Char → Option ℕ
  | [] => none
  | c :: cs =>
    if pyIsDigit c then
      let (ds, rest) := (c :: cs).span pyIsDigit
      if eolAfterSpaces rest then some (natOfDigits ds)
      else dotStarNatEol cs
    else if c = '\n' then none
    else dotStarNatEol cs

/-- Field search for `"?Apneas \+ Hypopneas \(AH\):\s+(\d+\.?\d*)\s*/h`
(prototype.py line 31). -/
def ahi_match : List Char → Option ℚ :=
  reSearch (matchLabelNumAt "Apneas + Hypopneas (AH):" afterSlashH)

/-- Field search for
`"?Oxygen Desaturation Index \(ODI\):\s+(\d+\.?\d*)\s*/h` (line 32). -/
def odi_match : List Char → Option ℚ :=
  reSearch (matchLabelNumAt "Oxygen Desaturation Index (ODI):" afterSlashH)

/-- Field search for `"?Average SpO2:\s+(\d+\.?\d*)\s*%` (line 33). -/
def avg_spo2_match : List Char → Option ℚ :=
  reSearch (matchLabelNumAt "Average SpO2:" afterPercent)

/-- Field search for `"?Minimum SpO2:\s+(\d+\.?\d*)\s*%` (line 34). -/
def min_spo2_match : List Char → Option ℚ :=
  reSearch (matchLabelNumAt "Minimum SpO2:" afterPercent)

/-- Match `"?Total Sleep Time \(TST\):\s+(\d+)h\s+(\d+)m` at the head of
`cs`, returning the two captured groups (hours, minutes). -/
def matchSleepAt (cs : List Char) : Option (ℕ × ℕ) :=
  match litS "Total Sleep Time (TST):" (quoteOpt cs) with
  | none => none
  | some cs1 =>
    match spaces1 cs1 with
    | none => none
    | some cs2 =>
      let (h, r1) := cs2.span pyIsDigit
      if h.isEmpty then none
      else
        match r1 with
        | 'h' :: r2 =>
          match spaces1 r2 with
          | none => none
          | some r3 =>
            let (m, r4) := r3.span pyIsDigit
            if m.isEmpty then none
            else
              match r4 with
              | 'm' :: _ => some (natOfDigits h, natOfDigits m)
              | _ => none
        | _ => none

/-- Field search for `"?Total Sleep Time \(TST\):\s+(\d+)h\s+(\d+)m`
(line 35). -/
def sleep_time_match : List Char → Option (ℕ × ℕ) :=
  reSearch matchSleepAt

/-- Match `"?Supine \(in TST\):.*?(\d+\.?\d*)\s*%` at the head of
`cs`. -/
def matchSupineAt (cs : List Char) : Option ℚ :=
  match litS "Supine (in TST):" (quoteOpt cs) with
  | none => none
  | some cs1 => dotStarNumThen afterPercent cs1

/-- Field search for `"?Supine \(in TST\):.*?(\d+\.?\d*)\s*%`
(line 36). -/
def supine_match : List Char → Option ℚ :=
  reSearch matchSupineAt

/-- Field search for `^"?Apneas:\s+(\d+\.?\d*)\s*/h` with
`re.MULTILINE` (line 37). -/
def apnea_index_match : List Char → Option ℚ :=
  reSearchML (matchLabelNumAt "Apneas:" afterSlashH)

/-- Match `"?Apneas:.*?(\d+)\s*$` at the head of `cs` (MULTILINE end
anchor). -/
def matchApneaCountAt (cs : List Char) : Option ℕ :=
  match litS "Apneas:" (quoteOpt cs) with
  | none => none
  | some cs1 => dotStarNatEol cs1

/-- Field search for `"?Apneas:.*?(\d+)\s*$` with `re.MULTILINE`
(line 38). -/
def apnea_count_match : List Char → Option ℕ :=
  reSearch matchApneaCountAt

/-- Field search for `"?Arousal index in TST:\s+(\d+\.?\d*)/h`
(line 39). -/
def arousal_match : List Char → Option ℚ :=
  reSearch (matchLabelNumAt "Arousal index in TST:" afterSlashHNoSpace)

/-- Python `int()` on a rational: truncation toward zero. -/
def pyInt (q : ℚ) : ℤ := if 0 ≤ q then ⌊q⌋ else ⌈q⌉

/-- The metrics record built by `parse_nox_report` (prototype.py
lines 41-58). -/
structure NoxRecord where
  ahi : ℚ
  odi : ℚ
  avg_spo2 : ℚ
  min_spo2 : ℚ
  sleep_time_hours : ℚ
  supine_pct : ℚ
  apnea_index : ℚ
  apnea_count : ℤ
  arousal_index : ℚ
  desat_events : ℤ
  awakenings : ℤ
deriving DecidableEq, Repr

/-- Body of the `try` branch of `parse_nox_report` (prototype.py
lines 27-59): resolve the nine base fields (matched value or per-field
default), then compute the two derived fields from the resolved
values. -/
def parse_nox_content (content : List Char) : NoxRecord :=
  let ahi : ℚ := match ahi_match content with | some v => v | none => 28.9
  let odi : ℚ := match odi_match content with | some v => v | none => 22.6
  let avg_spo2 : ℚ := match avg_spo2_match content with | some v => v | none => 92.7
  let min_spo2 : ℚ := match min_spo2_match content with | some v => v | none => 51
  let sleep_time_hours : ℚ :=
    match sleep_time_match content with
    | some (h, m) => (h : ℚ) + (m : ℚ) / 60
    | none => 8.5
  let supine_pct : ℚ := match supine_match content with | some v => v | none => 29.1
  let apnea_index : ℚ := match apnea_index_match content with | some v => v | none => 16.8
  let apnea_count : ℤ := match apnea_count_match content with | some v => (v : ℤ) | none => 143
  let arousal_index : ℚ := match arousal_match content with | some v => v | none => 0
  { ahi := ahi, odi := odi, avg_spo2 := avg_spo2, min_spo2 := min_spo2,
    sleep_time_hours := sleep_time_hours, supine_pct := supine_pct,
    apnea_index := apnea_index, apnea_count := apnea_count,
    arousal_index := arousal_index,
    desat_events := pyInt (odi * sleep_time_hours),
    awakenings := max 1 (pyInt (arousal_index * sleep_time_hours / 10)) }

/-- The hard-coded record returned by the `except` branch of
`parse_nox_report` (prototype.py lines 63-75). -/
def unreadable_default : NoxRecord :=
  { ahi := 28.9, odi := 22.6, avg_spo2 := 92.7, min_spo2 := 51,
    sleep_time_hours := 8.5, supine_pct := 29.1, apnea_index := 16.8,
    apnea_count := 143, arousal_index := 0,
    desat_events := 192, awakenings := 6 }

/-- Whole `parse_nox_report` (prototype.py lines 24-75).  A readable
file hands its content to the `try` branch; an unreadable one (the read
raises) lands in the `except` branch. -/
def parse_nox_report : Option (List Char) → NoxRecord
  | some content => parse_nox_content content
  | none => unreadable_default

/-- Statement that no field pattern matches anywhere in `content`. -/
def allFieldsMissing (content : List Char) : Prop :=
  ahi_match content = none ∧ odi_match content = none ∧
  avg_spo2_match content = none ∧ min_spo2_match content = none ∧
  sleep_time_match content = none ∧ supine_match content = none ∧
  apnea_index_match content = none ∧ apnea_count_match content = none ∧
  arousal_match content = none

instance (content : List Char) : Decidable (allFieldsMissing content) := by
  unfold allFieldsMissing; infer_instance

/-- The record that the all-patterns-missing path produces: the nine
per-field defaults together with the derived fields computed from them
(desat 192 = int(22.6 * 8.5), awakenings 1 = max(1, int(0))). -/
def all_missing_record : NoxRecord :=
  { ahi := 28.9, odi := 22.6, avg_spo2 := 92.7, min_spo2 := 51,
    sleep_time_hours := 8.5, supine_pct := 29.1, apnea_index := 16.8,
    apnea_count := 143, arousal_index := 0, desat_events := 192, awakenings := 1 }

/-- The four sleep positions of `position_angle_to_category`. -/
inductive PositionCategory where
  | Supine
  | Left
  | Right
  | Prone
deriving DecidableEq, Repr

open PositionCategory in
/-- Classifier `position_angle_to_category` (prototype.py lines
1450-1459 and 1640-1649): map a tilt angle to a sleep-position
category. -/
def position_angle_to_category (angle : ℚ) : PositionCategory :=
  if -45 ≤ angle ∧ angle ≤ 45 then Supine
  else if 45 < angle ∧ angle ≤ 135 then Right
  else if -135 ≤ angle ∧ angle < -45 then Left
  else Prone

/-- The numeric code each category is plotted at, per the mapping
Supine 2, Left 1, Right 3, Prone 4 (prototype.py lines 1464, 1654). -/
def positionNumericCode : PositionCategory → ℕ
  | .Supine => 2
  | .Left => 1
  | .Right => 3
  | .Prone => 4

/-- Constant `points_per_window = 300` (prototype.py lines 721,
1428). -/
def points_per_window : ℕ := 300

/-- Computation `max_window = (total_points // points_per_window) - 1`
(prototype.py line 722), as the Python integer it is. -/
def max_window (total_points : ℕ) : ℤ :=
  ((total_points / points_per_window : ℕ) : ℤ) - 1

/-- The window count reported by the navigation indicator, which prints
`of (max_window + 1)` (prototype.py line 745). -/
def window_count (total_points : ℕ) : ℤ :=
  max_window total_points + 1

/-- The navigation inputs `update_window` distinguishes by the
triggered id (prototype.py lines 732-741); `otherTrigger` is any id
that matches none of the four buttons or the patient dropdown. -/
inductive NavTrigger where
  | nextWindowBtn
  | prevWindowBtn
  | next10WindowBtn
  | prev10WindowBtn
  | patientDropdown
  | otherTrigger
deriving DecidableEq, Repr

/-- One step of the button dispatch of `update_window` (prototype.py
lines 730-741), for a table with `total_points` samples and stored
index `current`. -/
def update_window (total_points : ℕ) (current : ℤ) : NavTrigger → ℤ
  | .nextWindowBtn => min (current + 1) (max_window total_points)
  | .prevWindowBtn => max (current - 1) 0
  | .next10WindowBtn => min (current + 10) (max_window total_points)
  | .prev10WindowBtn => max (current - 10) 0
  | .patientDropdown => 0
  | .otherTrigger => current

/-- The stored index after a sequence of triggers, starting from the
initial store value 0 (the untriggered callback also yields 0,
prototype.py lines 726-727). -/
def run_window_nav (total_points : ℕ) (events : List NavTrigger) : ℤ :=
  events.foldl (update_window total_points) 0

/-- The windowed slice of `create_manufacturing_timeline` (prototype.py
lines 1428-1433): `patient_data.iloc[start_idx:end_idx]` with
`start_idx = window_index * 300` and `end_idx = start_idx + 300`, under
Python slice semantics. -/
def getWindow (rows : List α) (window_index : ℕ) : List α :=
  (rows.drop (window_index * points_per_window)).take points_per_window

/-- One row of the signal table with the six channels the timelines
draw (columns time, NasalFlow_cmH2O, SpO2_pct, Activity_gps,
PosAngle_deg, AudioVolume_dB, cRIP_Flow). -/
structure SignalRow where
  time : ℚ
  nasalFlow : ℚ
  spO2 : ℚ
  activity : ℚ
  posAngle : ℚ
  audioVolume : ℚ
  cripFlow : ℚ
deriving DecidableEq, Repr

/-- Clamp `np.clip(x, lo, hi)`. -/
def npClip (lo hi x : ℚ) : ℚ := min (max x lo) hi

/-- The per-trace data arrays of the full-night figure. -/
structure FullnightTraces where
  time_hours : List ℚ
  position_numeric : List ℕ
  activity : List ℚ
  flow : List ℚ
  spo2 : List ℚ
  crip_flow : List ℚ
  audio : List ℚ
deriving DecidableEq, Repr

/-- The data transformation of `create_fullnight_timeline`
(prototype.py lines 1618-1729): x-values `time / 3600.0`; position
angles mapped through `position_angle_to_category` to their numeric
codes; Activity, Flow, cRIP Flow and Audio passed through unchanged;
SpO2 passed through `np.clip(spo2_data, 70, 100)` (line 1692). -/
def create_fullnight_timeline (patient_data : List SignalRow) : FullnightTraces :=
  { time_hours := patient_data.map (fun r => r.time / 3600),
    position_numeric :=
      patient_data.map (fun r => positionNumericCode (position_angle_to_category r.posAngle)),
    activity := patient_data.map (fun r => r.activity),
    flow := patient_data.map (fun r => r.nasalFlow),
    spo2 := patient_data.map (fun r => npClip 70 100 r.spO2),
    crip_flow := patient_data.map (fun r => r.cripFlow),
    audio := patient_data.map (fun r => r.audioVolume) }

set_option maxRecDepth 16000 in
/-- Helper shared by the default-record results: when every pattern
fails, the resolved record is exactly `all_missing_record`. -/
lemma parse_nox_content_all_missing (content : List Char)
    (h : allFieldsMissing content) :
    parse_nox_content content = all_missing_record := by
  obtain ⟨h1, h2, h3, h4, h5, h6, h7, h8, h9⟩ := h
  unfold parse_nox_content
  rw [h1, h2, h3, h4, h5, h6, h7, h8, h9]
  with_unfolding_all decide

/-- C1 (amended): for every report text the derived fields satisfy
`desat_events = int(odi * sleep_time_hours)` and
`awakenings = max(1, int(arousal_index * sleep_time_hours / 10))`,
where `int` is truncation toward zero (not rounding) and the base
values are the resolved (matched or defaulted) fields; the derivation
is total and never falls back to a default. -/
theorem derived_fields_truncation (content : List Char) :
    (parse_nox_content content).desat_events =
      pyInt ((parse_nox_content content).odi * (parse_nox_content content).sleep_time_hours) ∧
    (parse_nox_content content).awakenings =
      max 1 (pyInt ((parse_nox_content content).arousal_index *
        (parse_nox_content content).sleep_time_hours / 10)) :=
  ⟨rfl, rfl⟩

set_option maxRecDepth 16000 in
/-- C1 (counterexample): on the report text that resolves the ODI to
0.2 (and everything else to its default, so sleep is 8.5 hours), the
derived desaturation count is int(1.7) = 1, not round(1.7) = 2 — the
claimed `round` relationship fails. -/
theorem derived_fields_round_counterexample :
    ¬ ((parse_nox_content "Oxygen Desaturation Index (ODI):  0.2 /h".toList).desat_events =
         round ((parse_nox_content "Oxygen Desaturation Index (ODI):  0.2 /h".toList).odi *
           (parse_nox_content "Oxygen Desaturation Index (ODI):  0.2 /h".toList).sleep_time_hours) ∧
       (parse_nox_content "Oxygen Desaturation Index (ODI):  0.2 /h".toList).awakenings =
         max 1 (round ((parse_nox_content "Oxygen Desaturation Index (ODI):  0.2 /h".toList).arousal_index *
           (parse_nox_content "Oxygen Desaturation Index (ODI):  0.2 /h".toList).sleep_time_hours / 10))) := by
  with_unfolding_all decide

set_option maxRecDepth 16000 in
/-- C2 (counterexample): the empty text matches none of the nine field
patterns, yet the record for an unreadable report differs from the
record for that all-missing readable report (awakenings 6 versus 1). -/
theorem unreadable_report_counterexample :
    allFieldsMissing [] ∧ parse_nox_report none ≠ parse_nox_report (some []) := by
  with_unfolding_all decide

set_option maxRecDepth 16000 in
/-- C2 (amended): for every report text matching none of the nine
patterns, the unreadable-report record agrees with the all-missing
record on all fields except `awakenings`, which is the hard-coded 6 in
the unreadable case but max(1, int(0 * 8.5 / 10)) = 1 in the
all-missing case. -/
theorem unreadable_report_near_missing (content : List Char)
    (h : allFieldsMissing content) :
    (parse_nox_report none).ahi = (parse_nox_report (some content)).ahi ∧
    (parse_nox_report none).odi = (parse_nox_report (some content)).odi ∧
    (parse_nox_report none).avg_spo2 = (parse_nox_report (some content)).avg_spo2 ∧
    (parse_nox_report none).min_spo2 = (parse_nox_report (some content)).min_spo2 ∧
    (parse_nox_report none).sleep_time_hours = (parse_nox_report (some content)).sleep_time_hours ∧
    (parse_nox_report none).supine_pct = (parse_nox_report (some content)).supine_pct ∧
    (parse_nox_report none).apnea_index = (parse_nox_report (some content)).apnea_index ∧
    (parse_nox_report none).apnea_count = (parse_nox_report (some content)).apnea_count ∧
    (parse_nox_report none).arousal_index = (parse_nox_report (some content)).arousal_index ∧
    (parse_nox_report none).desat_events = (parse_nox_report (some content)).desat_events ∧
    (parse_nox_report none).awakenings = 6 ∧
    (parse_nox_report (some content)).awakenings = 1 := by
  have hc : parse_nox_content content = all_missing_record :=
    parse_nox_content_all_missing content h
  simp only [parse_nox_report, hc]
  with_unfolding_all decide

set_option maxRecDepth 16000 in
/-- C2 (witness): the amended statement instantiated at the empty
report text. -/
theorem unreadable_report_near_missing_witness :
    allFieldsMissing [] ∧
    ((parse_nox_report none).awakenings = 6 ∧ (parse_nox_report (some [])).awakenings = 1) :=
  ⟨by with_unfolding_all decide,
   (unreadable_report_near_missing [] (by with_unfolding_all decide)).2.2.2.2.2.2.2.2.2.2⟩

/-- C3 (counterexample): a single-sample table whose SpO2 value is 51
(as the default minimum SpO2 shows the data can be) is not passed
through unchanged by the full-night view — it is clipped to 70. -/
theorem fullnight_spo2_clip_counterexample :
    (create_fullnight_timeline [⟨0, 0, 51, 0, 0, 0, 0⟩]).spo2 ≠
      [⟨0, 0, 51, 0, 0, 0, 0⟩].map (fun r : SignalRow => r.spO2) := by
  decide

/-- C3 (amended): the full-night view passes the Activity, Flow, cRIP
Flow and Audio channel values through unchanged and converts the time
column from seconds to hours (division by 3600); however the SpO2
channel is clipped to the range [70, 100] (identity only for in-range
samples, values below 70 are raised to 70) and the position channel is
plotted as the numeric code of the classified category rather than as
the raw angle. -/
theorem create_fullnight_timeline_spec (rows : List SignalRow) :
    (create_fullnight_timeline rows).activity = rows.map (fun r => r.activity) ∧
    (create_fullnight_timeline rows).flow = rows.map (fun r => r.nasalFlow) ∧
    (create_fullnight_timeline rows).crip_flow = rows.map (fun r => r.cripFlow) ∧
    (create_fullnight_timeline rows).audio = rows.map (fun r => r.audioVolume) ∧
    (create_fullnight_timeline rows).time_hours = rows.map (fun r => r.time / 3600) ∧
    (create_fullnight_timeline rows).spo2 = rows.map (fun r => npClip 70 100 r.spO2) ∧
    (create_fullnight_timeline rows).position_numeric =
      rows.map (fun r => positionNumericCode (position_angle_to_category r.posAngle)) ∧
    (∀ r ∈ rows, 70 ≤ r.spO2 → r.spO2 ≤ 100 → npClip 70 100 r.spO2 = r.spO2) ∧
    (∀ r ∈ rows, r.spO2 < 70 → npClip 70 100 r.spO2 = 70) := by
  refine ⟨rfl, rfl, rfl, rfl, rfl, rfl, rfl, ?_, ?_⟩
  · intro r _ ha hb
    unfold npClip
    rw [max_eq_left ha, min_eq_left hb]
  · intro r _ ha
    unfold npClip
    rw [max_eq_right (le_of_lt ha), min_eq_left (by linarith)]

/-- C3 (witness): the amended statement applied to a one-sample table
with an in-range SpO2 value of 80, which is passed through unchanged. -/
theorem create_fullnight_timeline_spec_witness :
    npClip 70 100 (80 : ℚ) = 80 ∧
    (create_fullnight_timeline [⟨0, 0, 80, 0, 0, 0, 0⟩]).spo2 = [(80 : ℚ)] :=
  ⟨(create_fullnight_timeline_spec [⟨0, 0, 80, 0, 0, 0, 0⟩]).2.2.2.2.2.2.2.1
      ⟨0, 0, 80, 0, 0, 0, 0⟩ (by simp) (by norm_num) (by norm_num),
   by decide⟩

/-- C4: the position classifier returns Supine exactly on [-45, 45],
Right exactly on (45, 135], Left exactly on [-135, -45), and Prone
otherwise (angles below -135 or above 135); in particular 45 is Supine,
45.0001 is Right, -45 is Supine, -45.0001 is Left and 180 is Prone. -/
theorem position_angle_to_category_spec (a : ℚ) :
    (position_angle_to_category a = .Supine ↔ -45 ≤ a ∧ a ≤ 45) ∧
    (position_angle_to_category a = .Right ↔ 45 < a ∧ a ≤ 135) ∧
    (position_angle_to_category a = .Left ↔ -135 ≤ a ∧ a < -45) ∧
    (position_angle_to_category a = .Prone ↔ a < -135 ∨ 135 < a) ∧
    position_angle_to_category 45 = .Supine ∧
    position_angle_to_category 45.0001 = .Right ∧
    position_angle_to_category (-45) = .Supine ∧
    position_angle_to_category (-45.0001) = .Left ∧
    position_angle_to_category 180 = .Prone := by
  refine ⟨?_, ?_, ?_, ?_,
    by norm_num [position_angle_to_category],
    by norm_num [position_angle_to_category],
    by norm_num [position_angle_to_category],
    by norm_num [position_angle_to_category],
    by norm_num [position_angle_to_category]⟩ <;>
  · unfold position_angle_to_category
    by_cases h1 : -45 ≤ a ∧ a ≤ 45
    · rw [if_pos h1]
      obtain ⟨ha, hb⟩ := h1
      simp
      first
      | exact ⟨ha, hb⟩
      | (constructor <;> linarith)
      | (intro h; linarith)
    · rw [if_neg h1]
      push_neg at h1
      by_cases h2 : 45 < a ∧ a ≤ 135
      · rw [if_pos h2]
        obtain ⟨ha, hb⟩ := h2
        simp
        first
        | exact ⟨ha, hb⟩
        | (constructor <;> linarith)
        | (intro h; linarith)
      · rw [if_neg h2]
        push_neg at h2
        by_cases h3 : -135 ≤ a ∧ a < -45
        · rw [if_pos h3]
          obtain ⟨ha, hb⟩ := h3
          simp
          first
          | exact ⟨ha, hb⟩
          | (constructor <;> linarith)
          | (intro h; linarith)
        · rw [if_neg h3]
          push_neg at h3
          simp
          first
          | exact h1
          | exact h2
          | exact h3
          | exact or_iff_not_imp_left.mpr fun hm => h2 (h1 (h3 (le_of_not_lt hm)))

/-- C5: the reported window count is floor(n / 300): it equals k both
for a table of exactly k*300 samples and for one of k*300 + r samples
with 0 < r < 300, so the trailing partial window is never counted. -/
theorem window_count_spec (n k r : ℕ) (h1 : 0 < r) (h2 : r < 300) :
    window_count n = ((n / 300 : ℕ) : ℤ) ∧
    window_count (k * 300) = (k : ℤ) ∧
    window_count (k * 300 + r) = (k : ℤ) := by
  unfold window_count max_window points_per_window
  refine ⟨by omega, by omega, by omega⟩

/-- C5 (witness): the window count at 650 samples (floor 650/300 = 2),
at 2*300 samples and at 2*300 + 50 samples. -/
theorem window_count_spec_witness :
    0 < 50 ∧ 50 < 300 ∧
      (window_count 650 = ((650 / 300 : ℕ) : ℤ) ∧
       window_count (2 * 300) = (2 : ℤ) ∧
       window_count (2 * 300 + 50) = (2 : ℤ)) :=
  ⟨by decide, by decide, window_count_spec 650 2 50 (by decide) (by decide)⟩

/-- C6: the windowed view takes exactly the rows in
[i*300, min((i+1)*300, n)): its length is min(300, n - i*300), an
out-of-range index or an empty table yields an empty result rather than
an error, and for a table of k*300 + r samples (r < 300) the window at
index k still returns the r remaining samples of the uncounted partial
window. -/
theorem getWindow_spec (rows : List ℚ) (i : ℕ) :
    getWindow rows i = (rows.take ((i + 1) * 300)).drop (i * 300) ∧
    (getWindow rows i).length = min 300 (rows.length - i * 300) ∧
    (rows.length ≤ i * 300 → getWindow rows i = []) ∧
    (rows = [] → getWindow rows i = []) ∧
    (∀ k r, rows.length = k * 300 + r → r < 300 → (getWindow rows k).length = r) := by
  unfold getWindow points_per_window
  refine ⟨?_, ?_, ?_, ?_, ?_⟩
  · rw [Nat.add_mul, one_mul, List.drop_take]
    congr 1
    omega
  · simp [List.length_take, List.length_drop, Nat.min_comm]
  · intro h
    rw [List.drop_eq_nil_of_le (by omega)]
    simp
  · intro h
    simp [h]
  · intro k r hlen hr
    simp [List.length_take, List.length_drop, hlen]
    omega

/-- C6 (witness): the slicing facts instantiated on a five-sample table
at window 0, whose uncounted partial window returns all five samples. -/
theorem getWindow_spec_witness :
    getWindow [(1 : ℚ), 2, 3, 4, 5] 0 = ([1, 2, 3, 4, 5].take ((0 + 1) * 300)).drop (0 * 300) ∧
    (getWindow [(1 : ℚ), 2, 3, 4, 5] 0).length = min 300 ([(1 : ℚ), 2, 3, 4, 5].length - 0 * 300) ∧
    ((5 : ℕ) = 0 * 300 + 5 ∧ 5 < 300 ∧ (getWindow [(1 : ℚ), 2, 3, 4, 5] 0).length = 5) := by
  have h := getWindow_spec [(1 : ℚ), 2, 3, 4, 5] 0
  exact ⟨h.1, h.2.1, by decide, by decide, h.2.2.2.2 0 5 (by decide) (by decide)⟩

set_option maxRecDepth 16000 in
/-- C7: for every report text matching none of the nine field patterns,
the extractor returns exactly the default record — AHI 28.9, ODI 22.6,
average SpO2 92.7, minimum SpO2 51, sleep 8.5 h, supine 29.1 %, apnea
index 16.8, apnea count 143, arousal index 0 — with the two derived
fields computed from those defaults (192 desaturation events and 1
awakening). -/
theorem parse_all_missing_default (content : List Char)
    (h : allFieldsMissing content) :
    parse_nox_content content =
      { ahi := 28.9, odi := 22.6, avg_spo2 := 92.7, min_spo2 := 51,
        sleep_time_hours := 8.5, supine_pct := 29.1, apnea_index := 16.8,
        apnea_count := 143, arousal_index := 0, desat_events := 192, awakenings := 1 } ∧
    (192 : ℤ) = pyInt (22.6 * 8.5) ∧
    (1 : ℤ) = max 1 (pyInt (0 * 8.5 / 10)) :=
  ⟨parse_nox_content_all_missing content h, by with_unfolding_all decide,
   by with_unfolding_all decide⟩

set_option maxRecDepth 16000 in
/-- C7 (witness): the default record obtained on the empty report
text. -/
theorem parse_all_missing_default_witness :
    allFieldsMissing [] ∧
    (parse_nox_content [] =
      { ahi := 28.9, odi := 22.6, avg_spo2 := 92.7, min_spo2 := 51,
        sleep_time_hours := 8.5, supine_pct := 29.1, apnea_index := 16.8,
        apnea_count := 143, arousal_index := 0, desat_events := 192, awakenings := 1 } ∧
     (192 : ℤ) = pyInt (22.6 * 8.5) ∧
     (1 : ℤ) = max 1 (pyInt (0 * 8.5 / 10))) :=
  ⟨by with_unfolding_all decide,
   parse_all_missing_default [] (by with_unfolding_all decide)⟩

set_option maxRecDepth 16000 in
/-- C8: on the report text consisting of the single AHI line from the
spec scenario, the extractor returns AHI 5.2 and every other base field
at its documented default. -/
theorem ahi_only_end_to_end :
    (parse_nox_content "Apneas + Hypopneas (AH):   5.2 /h".toList).ahi = 5.2 ∧
    (parse_nox_content "Apneas + Hypopneas (AH):   5.2 /h".toList).odi = 22.6 ∧
    (parse_nox_content "Apneas + Hypopneas (AH):   5.2 /h".toList).avg_spo2 = 92.7 ∧
    (parse_nox_content "Apneas + Hypopneas (AH):   5.2 /h".toList).min_spo2 = 51 ∧
    (parse_nox_content "Apneas + Hypopneas (AH):   5.2 /h".toList).sleep_time_hours = 8.5 ∧
    (parse_nox_content "Apneas + Hypopneas (AH):   5.2 /h".toList).supine_pct = 29.1 ∧
    (parse_nox_content "Apneas + Hypopneas (AH):   5.2 /h".toList).apnea_index = 16.8 ∧
    (parse_nox_content "Apneas + Hypopneas (AH):   5.2 /h".toList).apnea_count = 143 ∧
    (parse_nox_content "Apneas + Hypopneas (AH):   5.2 /h".toList).arousal_index = 0 := by
  with_unfolding_all decide

/-- C9: when the Total Sleep Time pattern matches with groups (H, M)
the resolved sleep time is H + M/60 hours, and when it does not match
the resolved sleep time is the default 8.5. -/
theorem sleep_time_resolution (content : List Char) :
    (∀ H M : ℕ, sleep_time_match content = some (H, M) →
      (parse_nox_content content).sleep_time_hours = (H : ℚ) + (M : ℚ) / 60) ∧
    (sleep_time_match content = none →
      (parse_nox_content content).sleep_time_hours = 8.5) := by
  have hbase : (parse_nox_content content).sleep_time_hours =
      match sleep_time_match content with
      | some (h, m) => (h : ℚ) + (m : ℚ) / 60
      | none => 8.5 := rfl
  constructor
  · intro H M hm
    rw [hbase, hm]
  · intro hm
    rw [hbase, hm]

/-- C9 (witness): a report line with TST 7h 30m resolves to 7 + 30/60 =
7.5 hours. -/
theorem sleep_time_resolution_witness :
    (parse_nox_content "Total Sleep Time (TST): 7h 30m".toList).sleep_time_hours =
      (7 : ℚ) + 30 / 60 ∧ ((7 : ℚ) + 30 / 60 = 7.5) :=
  ⟨(sleep_time_resolution "Total Sleep Time (TST): 7h 30m".toList).1 7 30 (by decide),
   by norm_num⟩

/-- C10: for a table with at least 300 samples, after any sequence of
previous/next/previous-10/next-10 clicks starting from the initial
index 0 the stored window index stays within [0, floor(n/300) - 1]
(so the uncounted trailing partial window is never reachable), and the
patient-dropdown trigger resets any index to 0. -/
theorem update_window_nav_invariant (n : ℕ) (hn : 300 ≤ n) (events : List NavTrigger) :
    (0 ≤ run_window_nav n events ∧ run_window_nav n events ≤ max_window n) ∧
    (∀ c : ℤ, update_window n c .patientDropdown = 0) := by
  refine ⟨?_, fun c => rfl⟩
  have hM : 0 ≤ max_window n := by unfold max_window points_per_window; omega
  unfold run_window_nav
  suffices h : ∀ (evs : List NavTrigger) (c : ℤ), 0 ≤ c → c ≤ max_window n →
      0 ≤ evs.foldl (update_window n) c ∧ evs.foldl (update_window n) c ≤ max_window n from
    h events 0 le_rfl hM
  intro evs
  induction evs with
  | nil => intro c h0 h1; exact ⟨h0, h1⟩
  | cons e evs ih =>
    intro c h0 h1
    have hstep : 0 ≤ update_window n c e ∧ update_window n c e ≤ max_window n := by
      cases e <;> simp [update_window] <;> omega
    simpa using ih (update_window n c e) hstep.1 hstep.2

/-- C10 (witness): the invariant on a 650-sample table (max index 1)
for a concrete click sequence, which ends at index 0. -/
theorem update_window_nav_invariant_witness :
    300 ≤ 650 ∧
    ((0 ≤ run_window_nav 650 [.nextWindowBtn, .next10WindowBtn, .prevWindowBtn] ∧
      run_window_nav 650 [.nextWindowBtn, .next10WindowBtn, .prevWindowBtn] ≤ max_window 650) ∧
     (∀ c : ℤ, update_window 650 c .patientDropdown = 0)) ∧
    run_window_nav 650 [.nextWindowBtn, .next10WindowBtn, .prevWindowBtn] = 0 :=
  ⟨by decide,
   update_window_nav_invariant 650 (by decide) [.nextWindowBtn, .next10WindowBtn, .prevWindowBtn],
   by decide⟩
